import Mathlib

/-!
Shallow embedding of the FSE route finder (classes.py, jobs.py, routes.py).

Conventions used throughout:
* Python ints become `Int` (job values, cargo weight) or `Nat` (counters,
  distances: `find_range` returns `int(...)` of a non-negative quantity, or the
  fallback `100`).
* Python float division becomes division in `ℚ`; the one place the code can
  raise `ZeroDivisionError` (`Route.__init__`) is additionally modelled by the
  fallible constructor `Route.init?`.
* The HTTP/XML fetch of `get_jobs` is modelled by a `FetchOutcome` oracle; the
  `except: ... exit()` branch (which terminates the whole process) is modelled
  as `Except.error ()`, and the route-search functions are parameterised over a
  job source `String → Nat → Except Unit (List CityPair)` standing for
  `get_jobs` with its transport layer.
-/

namespace FSE

/-- One parsed `<Assignment>` XML element, with the fields `get_jobs` reads:
`Location`, `ToIcao`, `Amount`, `Pay`, `UnitType`, `Type`. -/
structure Assignment where
  location : String
  toIcao : String
  amount : Int
  pay : Int
  unitType : String
  type : String
deriving DecidableEq

/-- The `find_range` function of classes.py. The great-circle formula
`int(R * c * NM_per_KM)` (a non-negative integer, computed from the airport
database coordinates) is modelled by the abstract function `gcDist`; when either
ICAO code is absent from the airport database `apt`, the code returns the fixed
fallback `100`. -/
def find_range (apt : String → Bool) (gcDist : String → String → Nat)
    (icao1 icao2 : String) : Nat :=
  if apt icao1 && apt icao2 then gcDist icao1 icao2 else 100

/-- The `CityPair` class of classes.py: all jobs between two airports. -/
structure CityPair where
  origin : String
  destination : String
  length : Nat
  leg : String × String
  cargo : Int
  cargo_jobs : Nat
  cargo_value : Int
  pax : Int
  pax_jobs : Nat
  pax_value : Int
  vips : Int
  vip_jobs : Nat
  vip_value : Int
  total_jobs : Nat
  total_value : Int
  dollars_per_nm : ℚ
deriving DecidableEq

/-- `CityPair.__init__` of classes.py: distance from `find_range`, the leg is
the `(origin, destination)` tuple, every counter starts at zero. -/
def CityPair.init (apt : String → Bool) (gcDist : String → String → Nat)
    (origin destination : String) : CityPair :=
  { origin := origin
    destination := destination
    length := find_range apt gcDist origin destination
    leg := (origin, destination)
    cargo := 0, cargo_jobs := 0, cargo_value := 0
    pax := 0, pax_jobs := 0, pax_value := 0
    vips := 0, vip_jobs := 0, vip_value := 0
    total_jobs := 0, total_value := 0, dollars_per_nm := 0 }

/-- `CityPair.update_totals` of classes.py: recompute the totals; the division
is guarded by `if self.length:`, so for a zero length the previous
`dollars_per_nm` is kept. -/
def CityPair.update_totals (cp : CityPair) : CityPair :=
  let tj := cp.cargo_jobs + cp.pax_jobs + cp.vip_jobs
  let tv := cp.cargo_value + cp.pax_value + cp.vip_value
  { cp with
    total_jobs := tj
    total_value := tv
    dollars_per_nm :=
      if cp.length ≠ 0 then (tv : ℚ) / (cp.length : ℚ) else cp.dollars_per_nm }

/-- `CityPair.add_cargo` of classes.py. -/
def CityPair.add_cargo (cp : CityPair) (weight pay : Int) : CityPair :=
  CityPair.update_totals
    { cp with
      cargo := cp.cargo + weight
      cargo_value := cp.cargo_value + pay
      cargo_jobs := cp.cargo_jobs + 1 }

/-- `CityPair.add_pax` of classes.py. -/
def CityPair.add_pax (cp : CityPair) (pax pay : Int) : CityPair :=
  CityPair.update_totals
    { cp with
      pax := cp.pax + pax
      pax_value := cp.pax_value + pay
      pax_jobs := cp.pax_jobs + 1 }

/-- `CityPair.add_vip` of classes.py. -/
def CityPair.add_vip (cp : CityPair) (vips pay : Int) : CityPair :=
  CityPair.update_totals
    { cp with
      vips := cp.vips + vips
      vip_value := cp.vip_value + pay
      vip_jobs := cp.vip_jobs + 1 }

/-- One mutating call on a `CityPair` (the three record operations). -/
inductive JobOp where
  | cargo (weight pay : Int)
  | pax (count pay : Int)
  | vip (count pay : Int)
deriving DecidableEq

/-- Apply one record operation. -/
def CityPair.applyOp (cp : CityPair) : JobOp → CityPair
  | .cargo w p => cp.add_cargo w p
  | .pax c p => cp.add_pax c p
  | .vip c p => cp.add_vip c p

/-- Apply a finite sequence of record operations, in order. -/
def CityPair.applyOps (cp : CityPair) (ops : List JobOp) : CityPair :=
  ops.foldl CityPair.applyOp cp

/-- The `Route` class of classes.py: the list of city pairs, the set of legs
(modelled as the deduplicated list of leg tuples), and the aggregates computed
by `__init__`. The division `self.value / self.length` is taken in `ℚ` (where
division by zero yields 0); `Route.init?` below records when the Python code
instead raises `ZeroDivisionError`. -/
structure Route where
  cps : List CityPair
  legs : List (String × String)
  value : Int
  length : Nat
  dollars_per_nm : ℚ
deriving DecidableEq

/-- `Route.__init__` of classes.py applied to a list of city pairs (the
single-city-pair call `Route(cp)` is `Route.init [cp]`). -/
def Route.init (city_pairs : List CityPair) : Route :=
  { cps := city_pairs
    legs := (city_pairs.map CityPair.leg).dedup
    value := (city_pairs.map CityPair.total_value).sum
    length := (city_pairs.map CityPair.length).sum
    dollars_per_nm :=
      ((city_pairs.map CityPair.total_value).sum : ℚ) /
        ((city_pairs.map CityPair.length).sum : ℚ) }

/-- Fallible view of `Route.__init__`: the Python division
`self.value / self.length` raises `ZeroDivisionError` exactly when the summed
length is 0, so construction yields `none` in that case. -/
def Route.init? (city_pairs : List CityPair) : Option Route :=
  if (city_pairs.map CityPair.length).sum = 0 then none
  else some (Route.init city_pairs)

/-- The endpoint `old_route.cps[-1].destination` used by `advance_route`
(routes in the search always have a non-empty city-pair list; the empty case,
an `IndexError` in Python, is given the junk value `""`). -/
def Route.lastIcao (r : Route) : String :=
  match r.cps.getLast? with
  | some cp => cp.destination
  | none => ""

/-- `sort_routes` of routes.py:
`sorted(routes, key=lambda x: x.dollars_per_nm, reverse=True)[:min(len(routes), max_routes)]`.
Python's `sorted` is stable and `reverse=True` orders by key descending, which
is exactly a stable merge sort with the comparison `b.key ≤ a.key`. -/
def sort_routes (routes : List Route) (max_routes : Nat) : List Route :=
  let sorted := routes.mergeSort fun a b =>
    decide (b.dollars_per_nm ≤ a.dollars_per_nm)
  sorted.take (min sorted.length max_routes)

/-- The final two lines of `get_jobs` of jobs.py:
`sorted(cps.values(), key=lambda x: x.dollars_per_nm, reverse=True)` truncated
to `[:min(len(sorted_cps), max_jobs)]`. -/
def sort_cps (cps : List CityPair) (max_jobs : Nat) : List CityPair :=
  let sorted := cps.mergeSort fun a b =>
    decide (b.dollars_per_nm ≤ a.dollars_per_nm)
  sorted.take (min sorted.length max_jobs)

/-- Outcome of the HTTP fetch inside `get_jobs`: a transport failure (the
`except:` branch around `fse.get`), or a parsed response carrying an optional
`<Error>` element and the list of `<Assignment>` elements. -/
inductive FetchOutcome where
  | transportFail
  | response (error : Option String) (assignments : List Assignment)
deriving DecidableEq

/-- Lookup in the Python dict `cps` keyed by `(origin, destination)`. -/
def dictFind? (cps : List ((String × String) × CityPair))
    (ident : String × String) : Option CityPair :=
  match cps.find? (fun e => decide (e.1 = ident)) with
  | some e => some e.2
  | none => none

/-- Assignment into the Python dict `cps`: replace in place when the key is
present, append otherwise (Python dicts preserve insertion order). -/
def dictSet (cps : List ((String × String) × CityPair))
    (ident : String × String) (cp : CityPair) :
    List ((String × String) × CityPair) :=
  match cps with
  | [] => [(ident, cp)]
  | e :: rest =>
    if e.1 = ident then (ident, cp) :: rest else e :: dictSet rest ident cp

/-- The body of the aggregation loop of `get_jobs` (jobs.py): create the city
pair on first sight of its `(Location, ToIcao)` key, then record the job as
cargo (`UnitType == 'kg'`), VIP (`Type == 'VIP'`), or passenger. -/
def record_assignment (apt : String → Bool) (gcDist : String → String → Nat)
    (cps : List ((String × String) × CityPair)) (j : Assignment) :
    List ((String × String) × CityPair) :=
  let ident := (j.location, j.toIcao)
  let cp := (dictFind? cps ident).getD (CityPair.init apt gcDist j.location j.toIcao)
  let cp :=
    if j.unitType = "kg" then cp.add_cargo j.amount j.pay
    else if j.type = "VIP" then cp.add_vip j.amount j.pay
    else cp.add_pax j.amount j.pay
  dictSet cps ident cp

/-- The whole aggregation loop of `get_jobs` over the `<Assignment>` list. -/
def aggregate_jobs (apt : String → Bool) (gcDist : String → String → Nat)
    (jobs : List Assignment) : List ((String × String) × CityPair) :=
  jobs.foldl (record_assignment apt gcDist) []

/-- `get_jobs` of jobs.py. A transport failure makes the code print and call
`exit()`, terminating the process: modelled as `Except.error ()`. An `<Error>`
response returns the empty list, exactly like a response with no assignments.
Otherwise the assignments are aggregated per `(origin, destination)` key and
the city pairs are sorted by `dollars_per_nm` descending and truncated. -/
def get_jobs (src : String → FetchOutcome) (apt : String → Bool)
    (gcDist : String → String → Nat) (icao : String) (max_jobs : Nat) :
    Except Unit (List CityPair) :=
  match src icao with
  | .transportFail => .error ()
  | .response (some _) _ => .ok []
  | .response none jobs =>
    .ok (sort_cps ((aggregate_jobs apt gcDist jobs).map Prod.snd) max_jobs)

/-- The candidate test of the inner loop of `advance_route` (routes.py): skip
the candidate when its leg is already in the route's leg set, or, when reverse
legs are disallowed, when its reversed leg `cp.leg[::-1]` is; otherwise build
`Route(old.cps + [cp])`. -/
def extend_route (allow_reverse : Bool) (old : Route) (cp : CityPair) :
    Option Route :=
  if cp.leg ∈ old.legs then none
  else if !allow_reverse && (cp.leg.2, cp.leg.1) ∈ old.legs then none
  else some (Route.init (old.cps ++ [cp]))

/-- The generation-building double loop of `advance_route`: for each surviving
route in order, fetch the jobs at its endpoint (a fetch failure exits the whole
process, hence the `Except` bind) and append every accepted extension. -/
def build_generation (jobsrc : String → Nat → Except Unit (List CityPair))
    (max_jobs : Nat) (allow_reverse : Bool) :
    List Route → Except Unit (List Route)
  | [] => .ok []
  | old :: rest => do
    let cps ← jobsrc old.lastIcao max_jobs
    let tail ← build_generation jobsrc max_jobs allow_reverse rest
    pure (cps.filterMap (extend_route allow_reverse old) ++ tail)

/-- `advance_route` of routes.py: build the next generation, prune it with
`sort_routes`, then recurse while `step + 1 < num_steps`. -/
def advance_route (jobsrc : String → Nat → Except Unit (List CityPair))
    (max_jobs max_routes : Nat) (allow_reverse : Bool) :
    List Route → Nat → Nat → Except Unit (List Route)
  | routes, step, num_steps => do
    let new_routes ← build_generation jobsrc max_jobs allow_reverse routes
    let pruned := sort_routes new_routes max_routes
    if _h : step + 1 < num_steps then
      advance_route jobsrc max_jobs max_routes allow_reverse pruned
        (step + 1) num_steps
    else
      pure pruned
termination_by _routes step num_steps => num_steps - step
decreasing_by omega

/-- `get_route` of routes.py: seed one single-leg route per fetched city pair,
prune, and advance while `steps = 1 < num_steps`. The function prints the final
routes; the printed list is modelled as the returned value. -/
def get_route (jobsrc : String → Nat → Except Unit (List CityPair))
    (start_icao : String) (num_steps max_jobs max_routes : Nat)
    (allow_reverse : Bool) : Except Unit (List Route) := do
  let cps ← jobsrc start_icao max_jobs
  let routes := cps.map fun cp => Route.init [cp]
  let routes := sort_routes routes max_routes
  if 1 < num_steps then
    advance_route jobsrc max_jobs max_routes allow_reverse routes 1 num_steps
  else
    pure routes

/-- Specification predicate for C4: the route's `legs` field is the leg set of
its city pairs, no leg is repeated, and (when reverse legs are disallowed) the
leg set never contains a pair together with its distinct reverse. -/
def legsOk (allow_reverse : Bool) (r : Route) : Prop :=
  r.legs = (r.cps.map CityPair.leg).dedup ∧
  (r.cps.map CityPair.leg).Nodup ∧
  (allow_reverse = false →
    ∀ a b, (a, b) ∈ r.legs → (b, a) ∈ r.legs → a = b)

/-! Concrete fixtures: the fixed JobSource responses of the spec's Scenarios 1
and 2, and small inputs used to exercise the theorems below. -/

/-- Equality of `Except` values is decidable componentwise. -/
instance exceptDecEq {ε α : Type} [DecidableEq ε] [DecidableEq α] :
    DecidableEq (Except ε α) := fun a b =>
  match a, b with
  | .error e, .error f =>
    if h : e = f then .isTrue (by rw [h]) else .isFalse (by simp [h])
  | .ok x, .ok y =>
    if h : x = y then .isTrue (by rw [h]) else .isFalse (by simp [h])
  | .error _, .ok _ => .isFalse (by simp)
  | .ok _, .error _ => .isFalse (by simp)

/-- Scenario airport database: A, B, C, D are known. -/
def aptS : String → Bool := fun s => s = "A" || s = "B" || s = "C" || s = "D"

/-- Scenario distances: A→B is 500 nm, A→C is 100 nm, C→D and C→A are 50 nm. -/
def gcS : String → String → Nat := fun a b =>
  if a = "A" && b = "B" then 500
  else if a = "A" && b = "C" then 100
  else if a = "C" && b = "D" then 50
  else if a = "C" && b = "A" then 50
  else 100

/-- Scenario city pair A→B: one job of value 1000 over 500 nm (density 2). -/
def cpAB : CityPair := (CityPair.init aptS gcS "A" "B").add_cargo 1 1000

/-- Scenario city pair A→C: one job of value 400 over 100 nm (density 4). -/
def cpAC : CityPair := (CityPair.init aptS gcS "A" "C").add_cargo 1 400

/-- Scenario city pair C→D: one job of value 200 over 50 nm (density 4). -/
def cpCD : CityPair := (CityPair.init aptS gcS "C" "D").add_cargo 1 200

/-- Scenario city pair C→A: one job of value 50 over 50 nm (density 1),
the reverse of A→C. -/
def cpCA : CityPair := (CityPair.init aptS gcS "C" "A").add_cargo 1 50

/-- The fixed JobSource of Scenarios 1 and 2: `JobSource(A) = [A→B, A→C]`,
`JobSource(C) = [C→D, C→A]`, empty elsewhere, never failing. -/
def jobsrcS : String → Nat → Except Unit (List CityPair) := fun icao _ =>
  .ok (if icao = "A" then [cpAB, cpAC]
    else if icao = "C" then [cpCD, cpCA] else [])

/-- Tie-break fixture: one job of value 200 over the 100 nm leg A→C
(density 2, total value 200). -/
def cpV1 : CityPair := (CityPair.init aptS gcS "A" "C").add_cargo 1 200

/-- Tie-break fixture: one job of value 1000 over the 500 nm leg A→B
(density 2, total value 1000). -/
def cpV2 : CityPair := (CityPair.init aptS gcS "A" "B").add_cargo 1 1000

/-- A job source whose fetch fails (transport failure, i.e. `exit()`) at
airport B and succeeds elsewhere with the single candidate C→D. -/
def jobsrcF : String → Nat → Except Unit (List CityPair) := fun icao _ =>
  if icao = "B" then .error () else .ok [cpCD]

/-- A concrete assignment: 5 kg of cargo from A to B paying 300. -/
def asgW : Assignment :=
  { location := "A", toIcao := "B", amount := 5, pay := 300,
    unitType := "kg", type := "Cargo" }

/-- A fetch oracle that always answers with an error response (the `s.Error`
branch of `get_jobs`) carrying one assignment. -/
def srcErr : String → FetchOutcome := fun _ => .response (some "ERR") [asgW]

/-- A fetch oracle that always answers with a well-formed empty response. -/
def srcEmpty : String → FetchOutcome := fun _ => .response none []

/-- A fetch oracle that always answers with exactly one cargo assignment. -/
def srcOne : String → FetchOutcome := fun _ => .response none [asgW]

/-! Helper lemmas shared by the claim theorems. -/

@[simp] theorem except_bind_ok {ε α β : Type} (a : α) (f : α → Except ε β) :
    (Except.ok (ε := ε) a >>= f) = f a := rfl

@[simp] theorem except_bind_error {ε α β : Type} (e : ε) (f : α → Except ε β) :
    (Except.error (α := α) e >>= f) = Except.error (α := β) e := rfl

@[simp] theorem except_pure_eq_ok {ε α : Type} (a : α) :
    (pure a : Except ε α) = Except.ok a := rfl

theorem applyOp_totals (cp : CityPair) (op : JobOp) :
    (cp.applyOp op).total_value =
      (cp.applyOp op).cargo_value + (cp.applyOp op).pax_value +
        (cp.applyOp op).vip_value ∧
    (cp.applyOp op).total_jobs =
      (cp.applyOp op).cargo_jobs + (cp.applyOp op).pax_jobs +
        (cp.applyOp op).vip_jobs := by
  cases op <;>
    simp [CityPair.applyOp, CityPair.add_cargo, CityPair.add_pax,
      CityPair.add_vip, CityPair.update_totals]

theorem applyOps_totals (cp : CityPair) (ops : List JobOp) (hne : ops ≠ []) :
    (cp.applyOps ops).total_value =
      (cp.applyOps ops).cargo_value + (cp.applyOps ops).pax_value +
        (cp.applyOps ops).vip_value ∧
    (cp.applyOps ops).total_jobs =
      (cp.applyOps ops).cargo_jobs + (cp.applyOps ops).pax_jobs +
        (cp.applyOps ops).vip_jobs := by
  induction ops generalizing cp with
  | nil => exact absurd rfl hne
  | cons op ops ih =>
    rcases ops with _ | ⟨op2, ops⟩
    · exact applyOp_totals cp op
    · exact ih (cp.applyOp op) (by simp)

theorem applyOp_length (cp : CityPair) (op : JobOp) :
    (cp.applyOp op).length = cp.length := by
  cases op <;> rfl

theorem applyOp_density_of_length_zero (cp : CityPair) (op : JobOp)
    (h : cp.length = 0) :
    (cp.applyOp op).dollars_per_nm = cp.dollars_per_nm := by
  cases op <;>
    simp [CityPair.applyOp, CityPair.add_cargo, CityPair.add_pax,
      CityPair.add_vip, CityPair.update_totals, h]

theorem applyOps_length (cp : CityPair) (ops : List JobOp) :
    (cp.applyOps ops).length = cp.length := by
  induction ops generalizing cp with
  | nil => rfl
  | cons op ops ih =>
    show ((cp.applyOp op).applyOps ops).length = cp.length
    rw [ih, applyOp_length]

theorem applyOps_density_zero (cp : CityPair) (ops : List JobOp)
    (h0 : cp.length = 0) (h1 : cp.dollars_per_nm = 0) :
    (cp.applyOps ops).dollars_per_nm = 0 := by
  induction ops generalizing cp with
  | nil => exact h1
  | cons op ops ih =>
    exact ih (cp.applyOp op) (by rw [applyOp_length]; exact h0)
      (by rw [applyOp_density_of_length_zero cp op h0]; exact h1)

/-! The claim theorems. -/

/-- C1: with the fixed JobSource of Scenarios 1 and 2 (`jobsrcS`), beam width
1 and reverse legs disallowed, `get_route` at start airport A yields, for
`num_steps = 1`, exactly the single route A→C with value-density 4, and, for
`num_steps = 2`, exactly the single route A→C→D with aggregate value 600,
aggregate length 150 nm, and value-density 4 (the candidate C→A being rejected
as the reverse of A→C). -/
theorem claim1_scenarios :
    get_route jobsrcS "A" 1 10 1 false = .ok [Route.init [cpAC]] ∧
    (Route.init [cpAC]).dollars_per_nm = 4 ∧
    get_route jobsrcS "A" 2 10 1 false = .ok [Route.init [cpAC, cpCD]] ∧
    (Route.init [cpAC, cpCD]).value = 600 ∧
    (Route.init [cpAC, cpCD]).length = 150 ∧
    (Route.init [cpAC, cpCD]).dollars_per_nm = 4 := by
  have hd : ∀ x : CityPair, (Route.init [x]).dollars_per_nm =
      (x.total_value : ℚ) / (x.length : ℚ) := by
    intro x
    simp [Route.init]
  refine ⟨?_, ?_, ?_, ?_, ?_, ?_⟩
  case refine_2 =>
    rw [hd]
    norm_num +decide [cpAC, CityPair.init, CityPair.add_cargo,
      CityPair.update_totals, aptS, gcS, find_range]
  case refine_4 =>
    norm_num +decide [Route.init, cpAC, cpCD, CityPair.init, CityPair.add_cargo,
      CityPair.update_totals, aptS, gcS, find_range]
  case refine_5 =>
    norm_num +decide [Route.init, cpAC, cpCD, CityPair.init, CityPair.add_cargo,
      CityPair.update_totals, aptS, gcS, find_range]
  case refine_6 =>
    norm_num +decide [Route.init, cpAC, cpCD, CityPair.init, CityPair.add_cargo,
      CityPair.update_totals, aptS, gcS, find_range]
  · simp only [get_route, jobsrcS, except_bind_ok]
    norm_num +decide [CityPair.init, CityPair.add_cargo, CityPair.update_totals,
      cpAB, cpAC, aptS, gcS, find_range, List.mergeSort, List.merge, Route.init,
      sort_routes]
  · simp only [get_route, jobsrcS, except_bind_ok]
    norm_num +decide [CityPair.init, CityPair.add_cargo, CityPair.update_totals,
      cpAB, cpAC, aptS, gcS, find_range, List.mergeSort, List.merge, Route.init,
      sort_routes]
    rw [advance_route]
    simp only [build_generation, jobsrcS, except_bind_ok, except_pure_eq_ok]
    norm_num +decide [CityPair.init, CityPair.add_cargo, CityPair.update_totals,
      cpAB, cpAC, cpCD, cpCA, aptS, gcS, find_range, List.mergeSort, List.merge,
      Route.init, sort_routes, Route.lastIcao, extend_route, List.filterMap]

/-- C2: for every CityPair and every sequence of record operations, after every
call (every prefix of the sequence, here quantified as an arbitrary `ops`) the
total value is the sum of the three category values and the total job count is
the sum of the three category counters; the sums are recomputed inside each
call, and the initial state also satisfies both equations. -/
theorem claim2_totals_invariant (apt : String → Bool)
    (gcDist : String → String → Nat) (origin destination : String)
    (ops : List JobOp) :
    ((CityPair.init apt gcDist origin destination).applyOps ops).total_value =
      ((CityPair.init apt gcDist origin destination).applyOps ops).cargo_value +
      ((CityPair.init apt gcDist origin destination).applyOps ops).pax_value +
      ((CityPair.init apt gcDist origin destination).applyOps ops).vip_value ∧
    ((CityPair.init apt gcDist origin destination).applyOps ops).total_jobs =
      ((CityPair.init apt gcDist origin destination).applyOps ops).cargo_jobs +
      ((CityPair.init apt gcDist origin destination).applyOps ops).pax_jobs +
      ((CityPair.init apt gcDist origin destination).applyOps ops).vip_jobs := by
  rcases ops with _ | ⟨op, ops⟩
  · exact ⟨rfl, rfl⟩
  · exact applyOps_totals _ _ (by simp)

/-- C3 counterexample: a CityPair between airports unknown to the directory
gets the fallback distance 100, and after recording one job of value 400 its
value-density is 4, not 0 — refuting the claim that the value-density is 0
whenever the distance is the fallback value. -/
theorem claim3_counterexample :
    ((CityPair.init (fun _ => false) (fun _ _ => 0) "A" "B").add_cargo 1
      400).length = 100 ∧
    ((CityPair.init (fun _ => false) (fun _ _ => 0) "A" "B").add_cargo 1
      400).dollars_per_nm = 4 ∧
    ((CityPair.init (fun _ => false) (fun _ _ => 0) "A" "B").add_cargo 1
      400).dollars_per_nm ≠ 0 := by
  refine ⟨rfl, ?_, ?_⟩ <;>
    norm_num [CityPair.init, CityPair.add_cargo, CityPair.update_totals,
      find_range]

/-- C3 amended: a CityPair's value-density computation never divides by a
non-positive denominator — when the distance is 0 the guard skips the division
and the value-density stays 0 after any sequence of record calls (when the
distance is the fallback 100 the density is `total_value / 100`, in general
nonzero) — while `Route.__init__` divides unconditionally and raises a
division error exactly when the aggregate length is 0. -/
theorem claim3_amended :
    (∀ (apt : String → Bool) (gcDist : String → String → Nat) (o d : String)
      (ops : List JobOp),
      ((CityPair.init apt gcDist o d).applyOps ops).length = 0 →
      ((CityPair.init apt gcDist o d).applyOps ops).dollars_per_nm = 0) ∧
    (∀ cps : List CityPair,
      Route.init? cps = none ↔ (cps.map CityPair.length).sum = 0) := by
  constructor
  · intro apt gcDist o d ops h
    refine applyOps_density_zero _ _ ?_ rfl
    rw [applyOps_length] at h
    exact h
  · intro cps
    unfold Route.init?
    split <;> simp_all

/-- C3 witness: a CityPair between known airports at distance 0 keeps
value-density 0 after recording a job, and the empty route construction
raises the division error. -/
theorem claim3_witness :
    ((CityPair.init (fun _ => true) (fun _ _ => 0) "A" "B").applyOps
      [JobOp.cargo 1 400]).dollars_per_nm = 0 ∧
    (Route.init? [] = none ↔ (([] : List CityPair).map CityPair.length).sum = 0) :=
  ⟨claim3_amended.1 (fun _ => true) (fun _ _ => 0) "A" "B" [JobOp.cargo 1 400]
    (by simp [CityPair.applyOps, CityPair.applyOp, CityPair.add_cargo,
      CityPair.update_totals, CityPair.init, find_range]),
   claim3_amended.2 []⟩

theorem take_mergeSort_spec {α : Type} (key : α → ℚ) (l : List α) (k : Nat) :
    (let s := l.mergeSort fun a b => decide (key b ≤ key a)
     let res := s.take (min s.length k)
     res.length ≤ min k l.length ∧
     res.Pairwise (fun a b => key b ≤ key a) ∧
     ∃ dropped, (res ++ dropped).Perm l ∧
       ∀ x ∈ res, ∀ y ∈ dropped, key y ≤ key x) := by
  intro s res
  have htrans : ∀ a b c : α, (decide (key b ≤ key a)) = true →
      (decide (key c ≤ key b)) = true → (decide (key c ≤ key a)) = true := by
    intro a b c h1 h2
    simp only [decide_eq_true_eq] at h1 h2 ⊢
    exact h2.trans h1
  have htotal : ∀ a b : α,
      ((decide (key b ≤ key a)) || (decide (key a ≤ key b))) = true := by
    intro a b
    simp only [Bool.or_eq_true, decide_eq_true_eq]
    exact le_total _ _
  have hsorted : s.Pairwise fun a b => key b ≤ key a := by
    have := List.sorted_mergeSort htrans htotal l
    exact this.imp (by simp)
  have hsplit : res ++ s.drop (min s.length k) = s :=
    List.take_append_drop _ s
  refine ⟨?_, ?_, s.drop (min s.length k), ?_, ?_⟩
  · simp only [res, s, List.length_take, List.length_mergeSort]
    omega
  · exact hsorted.sublist (List.take_sublist _ _)
  · rw [hsplit]
    exact List.mergeSort_perm l _
  · intro x hx y hy
    rw [← hsplit] at hsorted
    exact (List.pairwise_append.mp hsorted).2.2 x hx y hy

theorem sort_routes_nil (k : Nat) : sort_routes [] k = [] := by
  simp [sort_routes]

theorem sort_cps_nil (k : Nat) : sort_cps [] k = [] := by
  simp [sort_cps]

/-- C5: both pruning steps — `sort_routes` of routes.py and the final
sort-and-truncate of `get_jobs` (`sort_cps`) — return a list that is sorted by
value-density descending, has length at most `min k` (number of inputs), and
dominates every discarded input element in value-density. -/
theorem claim5_prune_topk :
    (∀ (l : List Route) (k : Nat),
      (sort_routes l k).length ≤ min k l.length ∧
      (sort_routes l k).Pairwise
        (fun a b => b.dollars_per_nm ≤ a.dollars_per_nm) ∧
      ∃ dropped, (sort_routes l k ++ dropped).Perm l ∧
        ∀ x ∈ sort_routes l k, ∀ y ∈ dropped,
          y.dollars_per_nm ≤ x.dollars_per_nm) ∧
    (∀ (l : List CityPair) (k : Nat),
      (sort_cps l k).length ≤ min k l.length ∧
      (sort_cps l k).Pairwise
        (fun a b => b.dollars_per_nm ≤ a.dollars_per_nm) ∧
      ∃ dropped, (sort_cps l k ++ dropped).Perm l ∧
        ∀ x ∈ sort_cps l k, ∀ y ∈ dropped,
          y.dollars_per_nm ≤ x.dollars_per_nm) :=
  ⟨fun l k => take_mergeSort_spec Route.dollars_per_nm l k,
   fun l k => take_mergeSort_spec CityPair.dollars_per_nm l k⟩

/-- C5 witness: at the concrete input `[Route.init [cpAC]]` with maximum 1,
the pruned list has length at most `min 1 1`. -/
theorem claim5_witness : (sort_routes [Route.init [cpAC]] 1).length ≤ min 1 1 :=
  (claim5_prune_topk.1 [Route.init [cpAC]] 1).1

/-- C6 counterexample: the single-leg routes over `cpV1` (value 200) and
`cpV2` (value 1000) have equal value-density 2, yet `sort_routes` keeps the
lower-value route first because it sorts only by value-density with a stable
sort — refuting the claim that ties are ordered by total value descending. -/
theorem claim6_counterexample :
    (Route.init [cpV1]).dollars_per_nm = (Route.init [cpV2]).dollars_per_nm ∧
    (Route.init [cpV1]).value < (Route.init [cpV2]).value ∧
    sort_routes [Route.init [cpV1], Route.init [cpV2]] 2 =
      [Route.init [cpV1], Route.init [cpV2]] := by
  refine ⟨?_, ?_, ?_⟩
  · norm_num +decide [Route.init, cpV1, cpV2, CityPair.init, CityPair.add_cargo,
      CityPair.update_totals, aptS, gcS, find_range]
  · norm_num +decide [Route.init, cpV1, cpV2, CityPair.init, CityPair.add_cargo,
      CityPair.update_totals, aptS, gcS, find_range]
  · norm_num +decide [Route.init, cpV1, cpV2, CityPair.init, CityPair.add_cargo,
      CityPair.update_totals, aptS, gcS, find_range, sort_routes,
      List.mergeSort, List.merge]

/-- C6 amended: when two routes have equal value-density, the pruner keeps them
in their input (generation/insertion) order — the sort is stable and total
value plays no role in the ordering — so repeated runs on identical inputs
produce identical ordered outputs. -/
theorem claim6_amended (l : List Route) (a b : Route)
    (hd : a.dollars_per_nm = b.dollars_per_nm)
    (hab : [a, b].Sublist l) :
    [a, b].Sublist (sort_routes l l.length) := by
  have htrans : ∀ x y z : Route,
      (decide (y.dollars_per_nm ≤ x.dollars_per_nm)) = true →
      (decide (z.dollars_per_nm ≤ y.dollars_per_nm)) = true →
      (decide (z.dollars_per_nm ≤ x.dollars_per_nm)) = true := by
    intro x y z h1 h2
    simp only [decide_eq_true_eq] at h1 h2 ⊢
    exact h2.trans h1
  have htotal : ∀ x y : Route,
      ((decide (y.dollars_per_nm ≤ x.dollars_per_nm)) ||
        (decide (x.dollars_per_nm ≤ y.dollars_per_nm))) = true := by
    intro x y
    simp only [Bool.or_eq_true, decide_eq_true_eq]
    exact le_total _ _
  have hstable := List.pair_sublist_mergeSort htrans htotal
    (by simp [hd]) hab
  unfold sort_routes
  have hlen : (l.mergeSort fun a b =>
      decide (b.dollars_per_nm ≤ a.dollars_per_nm)).length = l.length :=
    List.length_mergeSort l
  simp only [hlen, min_self]
  rw [← hlen, List.take_length]
  exact hstable

/-- C6 witness: the two equal-density fixture routes keep their input order in
the full (untruncated) pruner output. -/
theorem claim6_witness :
    [Route.init [cpV1], Route.init [cpV2]].Sublist
      (sort_routes [Route.init [cpV1], Route.init [cpV2]]
        [Route.init [cpV1], Route.init [cpV2]].length) :=
  claim6_amended _ _ _
    (by norm_num +decide [Route.init, cpV1, cpV2, CityPair.init,
      CityPair.add_cargo, CityPair.update_totals, aptS, gcS, find_range])
    (List.Sublist.refl _)

theorem advance_route_nil (jobsrc : String → Nat → Except Unit (List CityPair))
    (mj mr : Nat) (ar : Bool) (step ns : Nat) :
    advance_route jobsrc mj mr ar [] step ns = .ok [] := by
  have key : ∀ (n step ns : Nat), ns - step ≤ n →
      advance_route jobsrc mj mr ar [] step ns = .ok [] := by
    intro n
    induction n with
    | zero =>
      intro step ns h
      rw [advance_route]
      have hlt : ¬ step + 1 < ns := by omega
      simp [build_generation, sort_routes_nil, hlt]
    | succ n ih =>
      intro step ns h
      rw [advance_route]
      simp only [build_generation, except_bind_ok, sort_routes_nil]
      split
      · exact ih (step + 1) ns (by omega)
      · rfl
  exact key (ns - step) step ns le_rfl

/-- C7: if every surviving route's endpoint yields zero eligible extensions
(the fetch succeeds but every candidate is filtered out, or none is returned),
the generation is empty and `advance_route` returns the empty list — for the
current step and every later one — rather than falling back to the shorter
routes of earlier steps. -/
theorem claim7_empty_generation
    (jobsrc : String → Nat → Except Unit (List CityPair)) (mj mr : Nat)
    (ar : Bool) (routes : List Route) (step ns : Nat)
    (h : ∀ r ∈ routes, ∃ cands, jobsrc r.lastIcao mj = .ok cands ∧
      cands.filterMap (extend_route ar r) = []) :
    advance_route jobsrc mj mr ar routes step ns = .ok [] := by
  have hg : build_generation jobsrc mj ar routes = .ok [] := by
    induction routes with
    | nil => rfl
    | cons old rest ih =>
      obtain ⟨cands, hc, hf⟩ := h old (by simp)
      rw [build_generation, hc]
      simp [hf, ih fun r hr => h r (by simp [hr])]
  rw [advance_route, hg]
  simp only [except_bind_ok, sort_routes_nil]
  split
  · exact advance_route_nil jobsrc mj mr ar _ _
  · rfl

/-- C7 witness: with a job source returning no candidates anywhere, advancing
the one-route beam from step 1 of 3 yields the empty final set. -/
theorem claim7_witness :
    advance_route (fun _ _ => .ok ([] : List CityPair)) 10 1 false
      [Route.init [cpAC]] 1 3 = .ok [] :=
  claim7_empty_generation _ 10 1 false _ 1 3
    (fun _ _ => ⟨[], rfl, rfl⟩)

theorem build_generation_error
    (jobsrc : String → Nat → Except Unit (List CityPair)) (mj : Nat)
    (ar : Bool) (routes : List Route)
    (h : ∃ r ∈ routes, jobsrc r.lastIcao mj = .error ()) :
    build_generation jobsrc mj ar routes = .error () := by
  induction routes with
  | nil =>
    obtain ⟨r, hr, _⟩ := h
    cases hr
  | cons old rest ih =>
    obtain ⟨r, hr, he⟩ := h
    rw [build_generation]
    rcases List.mem_cons.mp hr with h1 | h1
    · rw [h1] at he
      rw [he]
      rfl
    · cases hj : jobsrc old.lastIcao mj with
      | error e =>
        cases e
        rfl
      | ok cps =>
        simp [ih ⟨r, h1, he⟩]

/-- C8 amended: a transport failure while fetching any surviving route's
endpoint aborts the entire search (`get_jobs` calls `exit()`, modelled as the
error propagating through `advance_route`), and a server error response is
returned by `get_jobs` as the empty list, indistinguishable from a response
with no jobs at all. -/
theorem claim8_amended :
    (∀ (jobsrc : String → Nat → Except Unit (List CityPair)) (mj mr : Nat)
      (ar : Bool) (routes : List Route) (step ns : Nat),
      (∃ r ∈ routes, jobsrc r.lastIcao mj = .error ()) →
      advance_route jobsrc mj mr ar routes step ns = .error ()) ∧
    (∀ (src src0 : String → FetchOutcome) (apt : String → Bool)
      (gcDist : String → String → Nat) (icao : String) (k : Nat) (e : String)
      (asg : List Assignment),
      src icao = .response (some e) asg → src0 icao = .response none [] →
      get_jobs src apt gcDist icao k = .ok [] ∧
      get_jobs src apt gcDist icao k = get_jobs src0 apt gcDist icao k) := by
  constructor
  · intro jobsrc mj mr ar routes step ns h
    rw [advance_route, build_generation_error jobsrc mj ar routes h]
    rfl
  · intro src src0 apt gcDist icao k e asg hsrc hsrc0
    constructor
    · rw [get_jobs, hsrc]
    · rw [get_jobs, hsrc, get_jobs, hsrc0]
      simp [aggregate_jobs, sort_cps_nil]

/-- C8 witness: with the concrete failing source `jobsrcF` the search over the
single seed route A→C aborts with the transport error. -/
theorem claim8_witness :
    advance_route jobsrcF 10 5 true [Route.init [cpAB]] 1 2 = .error () :=
  (claim8_amended.1 jobsrcF 10 5 true [Route.init [cpAB]] 1 2
    ⟨Route.init [cpAB], by simp, by
      norm_num +decide [Route.lastIcao, Route.init, cpAB, CityPair.init,
        CityPair.add_cargo, CityPair.update_totals, aptS, gcS, find_range,
        jobsrcF]⟩)

/-- C8 counterexample: one branch's transport failure aborts the whole search
— with `jobsrcF` failing only at airport B, `advance_route` on the two seed
routes A→B and A→C returns the process-terminating error even though the A→C
branch has the viable extension C→D; and `get_jobs` returns `.ok []` for an
error response exactly as for an empty response, so a transport-level problem
reported by the server is not distinguishable from "no jobs available". -/
theorem claim8_counterexample :
    advance_route jobsrcF 10 5 true
      [Route.init [cpAB], Route.init [cpAC]] 1 2 = .error () ∧
    extend_route true (Route.init [cpAC]) cpCD ≠ none ∧
    get_jobs srcErr aptS gcS "A" 10 = .ok [] ∧
    get_jobs srcEmpty aptS gcS "A" 10 = .ok [] := by
  refine ⟨?_, ?_, rfl, ?_⟩
  · rw [advance_route]
    rw [build_generation]
    have hB : (Route.init [cpAB]).lastIcao = "B" := by
      norm_num +decide [Route.lastIcao, Route.init, cpAB, CityPair.init,
        CityPair.add_cargo, CityPair.update_totals, aptS, gcS, find_range]
    rw [hB]
    rfl
  · norm_num +decide [extend_route, Route.init, cpAC, cpCD, CityPair.init,
      CityPair.add_cargo, CityPair.update_totals, aptS, gcS, find_range]
  · rw [get_jobs]
    simp [srcEmpty, aggregate_jobs, sort_cps_nil]

theorem mem_sort_routes {x : Route} {l : List Route} {k : Nat}
    (h : x ∈ sort_routes l k) : x ∈ l := by
  unfold sort_routes at h
  exact List.mem_mergeSort.mp ((List.take_sublist _ _).mem h)

theorem mem_sort_cps {x : CityPair} {l : List CityPair} {k : Nat}
    (h : x ∈ sort_cps l k) : x ∈ l := by
  unfold sort_cps at h
  exact List.mem_mergeSort.mp ((List.take_sublist _ _).mem h)

theorem extend_route_some {ar : Bool} {old : Route} {cp : CityPair} {r : Route}
    (h : extend_route ar old cp = some r) :
    r = Route.init (old.cps ++ [cp]) ∧ cp.leg ∉ old.legs ∧
      (ar = false → (cp.leg.2, cp.leg.1) ∉ old.legs) := by
  unfold extend_route at h
  split at h
  · cases h
  · split at h
    · cases h
    · rename_i h1 h2
      refine ⟨(Option.some_inj.mp h).symm, h1, fun haf hmem => ?_⟩
      subst haf
      simp [hmem] at h2

theorem mem_build_generation
    {jobsrc : String → Nat → Except Unit (List CityPair)} {mj : Nat}
    {ar : Bool} :
    ∀ {routes res : List Route},
      build_generation jobsrc mj ar routes = .ok res →
      ∀ r ∈ res, ∃ old ∈ routes, ∃ cp, extend_route ar old cp = some r := by
  intro routes
  induction routes with
  | nil =>
    intro res h r hr
    cases h
    cases hr
  | cons old rest ih =>
    intro res h r hr
    rw [build_generation] at h
    cases hj : jobsrc old.lastIcao mj with
    | error e => rw [hj] at h; cases h
    | ok cps =>
      rw [hj] at h
      simp only [except_bind_ok] at h
      cases hb : build_generation jobsrc mj ar rest with
      | error e => rw [hb] at h; cases h
      | ok tail =>
        rw [hb] at h
        simp only [except_bind_ok, except_pure_eq_ok, Except.ok.injEq] at h
        subst h
        rcases List.mem_append.mp hr with h1 | h1
        · obtain ⟨cp, _, hcp⟩ := List.mem_filterMap.mp h1
          exact ⟨old, by simp, cp, hcp⟩
        · obtain ⟨o, ho, cp, hcp⟩ := ih hb r h1
          exact ⟨o, by simp [ho], cp, hcp⟩

theorem advance_route_ok_inv
    (jobsrc : String → Nat → Except Unit (List CityPair)) (mj mr : Nat)
    (ar : Bool) (P : Nat → Route → Prop)
    (hext : ∀ step old cp r, P step old → extend_route ar old cp = some r →
      P (step + 1) r) :
    ∀ (n step ns : Nat) (routes out : List Route), ns - step ≤ n →
      step < ns → (∀ r ∈ routes, P step r) →
      advance_route jobsrc mj mr ar routes step ns = .ok out →
      ∀ r ∈ out, P ns r := by
  intro n
  induction n with
  | zero =>
    intro step ns routes out hle hlt
    exact absurd hlt (by omega)
  | succ n ih =>
    intro step ns routes out hle hlt hP hadv
    rw [advance_route] at hadv
    cases hg : build_generation jobsrc mj ar routes with
    | error e => rw [hg] at hadv; cases hadv
    | ok gen =>
      rw [hg] at hadv
      simp only [except_bind_ok] at hadv
      have hpruned : ∀ r ∈ sort_routes gen mr, P (step + 1) r := by
        intro r hr
        obtain ⟨old, hold, cp, hcp⟩ :=
          mem_build_generation hg r (mem_sort_routes hr)
        exact hext step old cp r (hP old hold) hcp
      by_cases hstep : step + 1 < ns
      · rw [dif_pos hstep] at hadv
        exact ih (step + 1) ns _ out (by omega) hstep hpruned hadv
      · rw [dif_neg hstep] at hadv
        simp only [except_pure_eq_ok, Except.ok.injEq] at hadv
        subst hadv
        have hns : ns = step + 1 := by omega
        subst hns
        exact hpruned

theorem legsOk_init_single (ar : Bool) (cp : CityPair) :
    legsOk ar (Route.init [cp]) := by
  refine ⟨rfl, by simp [Route.init], fun _ a b h1 h2 => ?_⟩
  have e1 : (a, b) = cp.leg := by
    simpa [Route.init, List.mem_dedup] using h1
  have e2 : (b, a) = cp.leg := by
    simpa [Route.init, List.mem_dedup] using h2
  have h3 : (a, b) = (b, a) := by rw [e1, e2]
  exact (Prod.ext_iff.mp h3).1

theorem legsOk_extend {ar : Bool} {old : Route} {cp : CityPair} {r : Route}
    (hold : legsOk ar old) (h : extend_route ar old cp = some r) :
    legsOk ar r := by
  obtain ⟨hr, hnotin, hrev⟩ := extend_route_some h
  obtain ⟨hlegs, hnodup, hrevold⟩ := hold
  have hnotin2 : cp.leg ∉ old.cps.map CityPair.leg := by
    rw [hlegs] at hnotin
    simpa [List.mem_dedup] using hnotin
  subst hr
  refine ⟨rfl, ?_, ?_⟩
  · simp [Route.init, List.nodup_append, hnodup, hnotin2]
  · intro haf a b h1 h2
    have hmem : ∀ p : String × String,
        p ∈ (Route.init (old.cps ++ [cp])).legs ↔
          p ∈ old.legs ∨ p = cp.leg := by
      intro p
      simp [Route.init, List.mem_dedup, hlegs]
    rcases (hmem (a, b)).mp h1 with ha | ha <;>
      rcases (hmem (b, a)).mp h2 with hb | hb
    · exact hrevold haf a b ha hb
    · exfalso
      apply hrev haf
      rw [← hb]
      exact ha
    · exfalso
      apply hrev haf
      rw [← ha]
      exact hb
    · have : (a, b) = (b, a) := by rw [ha, hb]
      have := (Prod.mk.injEq _ _ _ _).mp this
      exact this.1

theorem get_route_legsOk
    (jobsrc : String → Nat → Except Unit (List CityPair)) (start : String)
    (ns mj mr : Nat) (ar : Bool) (out : List Route)
    (hok : get_route jobsrc start ns mj mr ar = .ok out) :
    ∀ r ∈ out, legsOk ar r := by
  rw [get_route] at hok
  cases hj : jobsrc start mj with
  | error e => rw [hj] at hok; cases hok
  | ok cps =>
    rw [hj] at hok
    simp only [except_bind_ok] at hok
    have hseed : ∀ r ∈ sort_routes (cps.map fun cp => Route.init [cp]) mr,
        legsOk ar r := by
      intro r hr
      obtain ⟨cp, _, hcp⟩ := List.mem_map.mp (mem_sort_routes hr)
      rw [← hcp]
      exact legsOk_init_single ar cp
    by_cases hns : 1 < ns
    · rw [if_pos hns] at hok
      exact advance_route_ok_inv jobsrc mj mr ar (fun _ r => legsOk ar r)
        (fun _ old cp r hP hcp => legsOk_extend hP hcp)
        (ns - 1) 1 ns _ out le_rfl hns hseed hok
    · rw [if_neg hns] at hok
      simp only [except_pure_eq_ok, Except.ok.injEq] at hok
      subst hok
      exact hseed

/-- C4: every route produced by `get_route` (seeded there and extended through
`advance_route`) has as many distinct legs as city pairs — no leg repeated —
and, when reverse legs are disallowed, never contains a leg `(a, b)` together
with its reverse `(b, a)` for distinct `a, b`. -/
theorem claim4_route_legs
    (jobsrc : String → Nat → Except Unit (List CityPair)) (start : String)
    (ns mj mr : Nat) (ar : Bool) (out : List Route) (r : Route)
    (hok : get_route jobsrc start ns mj mr ar = .ok out) (hr : r ∈ out) :
    r.legs.length = r.cps.length ∧
    (ar = false → ∀ a b, (a, b) ∈ r.legs → (b, a) ∈ r.legs → a = b) := by
  obtain ⟨hlegs, hnodup, hrev⟩ := get_route_legsOk jobsrc start ns mj mr ar
    out hok r hr
  refine ⟨?_, hrev⟩
  rw [hlegs, List.dedup_eq_self.mpr hnodup, List.length_map]

/-- C4 witness: the single-leg route over `cpAC` produced by a one-candidate
job source has exactly as many distinct legs as city pairs. -/
theorem claim4_witness :
    (Route.init [cpAC]).legs.length = (Route.init [cpAC]).cps.length :=
  (claim4_route_legs (fun _ _ => .ok [cpAC]) "A" 1 10 5 false
    [Route.init [cpAC]] (Route.init [cpAC])
    (by simp [get_route, sort_routes, List.mergeSort]) (by simp)).1

/-- C9: `get_route` terminates by construction (it is a total function), and
for every `num_steps ≥ 1` every route in its result contains exactly
`num_steps` city pairs: the seed contributes one leg and each of the
`num_steps - 1` expansion rounds appends exactly one leg to each survivor. -/
theorem claim9_route_length
    (jobsrc : String → Nat → Except Unit (List CityPair)) (start : String)
    (ns mj mr : Nat) (ar : Bool) (out : List Route) (hns : 1 ≤ ns)
    (hok : get_route jobsrc start ns mj mr ar = .ok out) :
    ∀ r ∈ out, r.cps.length = ns := by
  rw [get_route] at hok
  cases hj : jobsrc start mj with
  | error e => rw [hj] at hok; cases hok
  | ok cps =>
    rw [hj] at hok
    simp only [except_bind_ok] at hok
    have hseed : ∀ r ∈ sort_routes (cps.map fun cp => Route.init [cp]) mr,
        r.cps.length = 1 := by
      intro r hr
      obtain ⟨cp, _, hcp⟩ := List.mem_map.mp (mem_sort_routes hr)
      rw [← hcp]
      rfl
    by_cases h1 : 1 < ns
    · rw [if_pos h1] at hok
      exact advance_route_ok_inv jobsrc mj mr ar
        (fun step r => r.cps.length = step)
        (fun step old cp r hP hcp => by
          rw [(extend_route_some hcp).1]
          simp only [Route.init, List.length_append, List.length_cons,
            List.length_nil, hP])
        (ns - 1) 1 ns _ out le_rfl h1 hseed hok
    · rw [if_neg h1] at hok
      simp only [except_pure_eq_ok, Except.ok.injEq] at hok
      subst hok
      have : ns = 1 := by omega
      subst this
      exact hseed

/-- C9 witness: with a one-candidate job source and `num_steps = 1` the
produced route has exactly one city pair. -/
theorem claim9_witness : (Route.init [cpAC]).cps.length = 1 :=
  claim9_route_length (fun _ _ => .ok [cpAC]) "A" 1 10 5 false
    [Route.init [cpAC]] (by omega)
    (by simp [get_route, sort_routes, List.mergeSort])
    (Route.init [cpAC]) (by simp)

theorem total_jobs_pos_add_cargo (cp : CityPair) (a p : Int) :
    1 ≤ (cp.add_cargo a p).total_jobs := by
  simp [CityPair.add_cargo, CityPair.update_totals]
  omega

theorem total_jobs_pos_add_pax (cp : CityPair) (a p : Int) :
    1 ≤ (cp.add_pax a p).total_jobs := by
  simp [CityPair.add_pax, CityPair.update_totals]
  omega

theorem total_jobs_pos_add_vip (cp : CityPair) (a p : Int) :
    1 ≤ (cp.add_vip a p).total_jobs := by
  simp [CityPair.add_vip, CityPair.update_totals]
  omega

theorem mem_dictSet {cps : List ((String × String) × CityPair)}
    {ident : String × String} {cp : CityPair} :
    ∀ e ∈ dictSet cps ident cp, e ∈ cps ∨ e = (ident, cp) := by
  induction cps with
  | nil =>
    intro e he
    rw [dictSet] at he
    simp at he
    right
    simpa using he
  | cons hd rest ih =>
    intro e he
    rw [dictSet] at he
    split at he
    · rcases List.mem_cons.mp he with h1 | h1
      · right
        exact h1
      · left
        exact List.mem_cons.mpr (Or.inr h1)
    · rcases List.mem_cons.mp he with h1 | h1
      · left
        simp [h1]
      · rcases ih e h1 with h2 | h2
        · left
          exact List.mem_cons.mpr (Or.inr h2)
        · right
          exact h2

theorem record_assignment_jobs_pos (apt : String → Bool)
    (gcDist : String → String → Nat)
    (cps : List ((String × String) × CityPair)) (j : Assignment)
    (h : ∀ e ∈ cps, 1 ≤ e.2.total_jobs) :
    ∀ e ∈ record_assignment apt gcDist cps j, 1 ≤ e.2.total_jobs := by
  intro e he
  rw [record_assignment] at he
  rcases mem_dictSet e he with h1 | h1
  · exact h e h1
  · rw [h1]
    dsimp only
    split
    · exact total_jobs_pos_add_cargo _ _ _
    · split
      · exact total_jobs_pos_add_vip _ _ _
      · exact total_jobs_pos_add_pax _ _ _

theorem aggregate_jobs_pos (apt : String → Bool)
    (gcDist : String → String → Nat) (jobs : List Assignment) :
    ∀ e ∈ aggregate_jobs apt gcDist jobs, 1 ≤ e.2.total_jobs := by
  have key : ∀ (jobs : List Assignment)
      (acc : List ((String × String) × CityPair)),
      (∀ e ∈ acc, 1 ≤ e.2.total_jobs) →
      ∀ e ∈ jobs.foldl (record_assignment apt gcDist) acc,
        1 ≤ e.2.total_jobs := by
    intro jobs
    induction jobs with
    | nil => intro acc h; exact h
    | cons j rest ih =>
      intro acc h
      exact ih _ (record_assignment_jobs_pos apt gcDist acc j h)
  exact key jobs [] (by intro e he; cases he)

/-- C10: every CityPair in a successfully returned `get_jobs` list has at
least one job recorded: a pair is created only when an assignment with its
key is seen, and that assignment is recorded into it in the same loop
iteration, so the fetch interface never yields an empty-aggregate leg. -/
theorem claim10_nonempty_citypairs (src : String → FetchOutcome)
    (apt : String → Bool) (gcDist : String → String → Nat) (icao : String)
    (k : Nat) (out : List CityPair)
    (hok : get_jobs src apt gcDist icao k = .ok out) :
    ∀ cp ∈ out, 1 ≤ cp.total_jobs := by
  intro cp hcp
  rw [get_jobs] at hok
  cases hsrc : src icao with
  | transportFail => rw [hsrc] at hok; cases hok
  | response err asg =>
    rw [hsrc] at hok
    cases err with
    | some e =>
      simp only [Except.ok.injEq] at hok
      subst hok
      cases hcp
    | none =>
      simp only [Except.ok.injEq] at hok
      subst hok
      obtain ⟨e, he, hecp⟩ := List.mem_map.mp (mem_sort_cps hcp)
      rw [← hecp]
      exact aggregate_jobs_pos apt gcDist asg e he

/-- C10 witness: with one cargo assignment A→B the single returned CityPair
has at least one job. -/
theorem claim10_witness :
    1 ≤ ((CityPair.init aptS gcS "A" "B").add_cargo 5 300).total_jobs :=
  claim10_nonempty_citypairs srcOne aptS gcS "A" 10
    [(CityPair.init aptS gcS "A" "B").add_cargo 5 300]
    (by
      rw [get_jobs]
      show Except.ok _ = _
      simp [aggregate_jobs, record_assignment, dictFind?, dictSet, asgW,
        sort_cps, List.mergeSort])
    ((CityPair.init aptS gcS "A" "B").add_cargo 5 300) (by simp)

end FSE
